import Mathlib

/-!
Verification of the Rabbit agent orchestration core (rabbit_sdk).

This file gives a shallow embedding, in Lean 4, of the parts of the Python
source that the frozen claims are about:

* `rabbit_sdk/memory_manager.py` — `MemoryManager.save` / `MemoryManager.get`
  (SQLite row store modelled as an association list of
  `(session_id, key) ↦ value-text`, plus the in-process cache holding Python
  values);
* `rabbit_sdk/planner.py` — `Planner.create_initial_plan`,
  `Planner.should_reuse_result`, `Planner.plan_next_action`;
* `rabbit_sdk/browser_controller.py` — the retry loop of
  `BrowserController.open_page`;
* `rabbit_sdk/agent.py` — `RabbitAgent._execute_action`, the step loop of
  `RabbitAgent.run_task`, and `run_task` itself.

External collaborators (the Playwright page, the Gemini model, `json.loads`
on oracle output) are modelled as behaviour parameters: functions supplied
to the embedded code that may return a value or raise (an `Except String`
result).  Python exceptions are `Except.error` values carrying the message
text; a `try/except` block in the source becomes a `match` on such a value.
Python dictionaries/lists that flow through the orchestrator are modelled
by the `PyVal` type below.
-/

namespace Rabbit

/-! ## Python string primitives used by the source -/

/-- Python `str.replace(c, '')` for the three characters removed by
`sanitize_input` amounts to filtering those characters out. -/
def sanitizeInput (s : String) : String :=
  String.mk (s.toList.filter (fun c => !(c = ';' || c = '&' || c = '|')))

/-- Whitespace stripped by Python `str.strip()`. -/
def isPyWS (c : Char) : Bool :=
  c = ' ' || c = '\t' || c = '\n' || c = '\r' || c = '\x0b' || c = '\x0c'

/-- Python `str.strip()` on a character list. -/
def pyStrip (l : List Char) : List Char :=
  ((l.dropWhile isPyWS).reverse.dropWhile isPyWS).reverse

/-- Python `str.lower()` on a character list (ASCII case). -/
def pyLower (l : List Char) : List Char := l.map Char.toLower

/-- Python substring test `needle in hay`. -/
def containsSub (needle : List Char) : List Char → Bool
  | [] => needle.isEmpty
  | c :: t => needle.isPrefixOf (c :: t) || containsSub needle t

/-- Python `s.find(c)`: index of the first occurrence of `c`
(meaningful only when `c ∈ l`, which the source checks first). -/
def firstIdx (c : Char) : List Char → Nat
  | [] => 0
  | x :: t => if x = c then 0 else firstIdx c t + 1

/-- Python `s.rfind(c)`: index of the last occurrence of `c`
(meaningful only when `c ∈ l`). -/
def lastIdx (c : Char) (l : List Char) : Nat :=
  l.length - 1 - firstIdx c l.reverse

/-- Python slice `l[a:b]`. -/
def pySlice (l : List Char) (a b : Nat) : List Char :=
  (l.drop a).take (b - a)

/-! ## Python values

The dictionaries, lists and scalars that flow through the orchestrator
(`json`-serializable Python data) are modelled by `PyVal`. -/

inductive PyVal where
  | str : String → PyVal
  | int : Int → PyVal
  | bool : Bool → PyVal
  | none : PyVal
  | list : List PyVal → PyVal
  | dict : List (String × PyVal) → PyVal

/-- Python dict lookup `d.get(k)` (`Option.none` when the key is absent,
mirroring Python's `None`).  Applied to a non-dict it is `none` as well;
the call sites in the source only reach it with dicts. -/
def dget (v : PyVal) (k : String) : Option PyVal :=
  match v with
  | .dict l =>
    match l.find? (fun p => p.1 = k) with
    | some p => some p.2
    | Option.none => Option.none
  | _ => Option.none

/-- Python `d.get(k, default)`. -/
def dgetD (v : PyVal) (k : String) (d : PyVal) : PyVal :=
  (dget v k).getD d

/-- Python truthiness (`bool(v)`) for the values in our universe. -/
def pyTruthy : PyVal → Bool
  | .str s => !s.isEmpty
  | .int i => i ≠ 0
  | .bool b => b
  | .none => false
  | .list l => !l.isEmpty
  | .dict l => !l.isEmpty

/-- Truthiness of a Python `d.get(k)` result (`None` is falsy). -/
def truthyOpt : Option PyVal → Bool
  | some v => pyTruthy v
  | Option.none => false

/-- Python `v == "lit"` where `v` is an arbitrary object: true exactly
when `v` is the string `lit` (Python `==` across types is `False`). -/
def isStrEq (v : PyVal) (lit : String) : Bool :=
  match v with
  | .str s => s = lit
  | _ => false

/-- String escaping of Python `json.dumps` (the cases exercised here:
quote, backslash and common control characters). -/
def jsonEscape (s : String) : String :=
  String.join (s.toList.map fun c =>
    if c = '"' then "\\\"" else if c = '\\' then "\\\\"
    else if c = '\n' then "\\n" else if c = '\t' then "\\t"
    else if c = '\r' then "\\r" else String.mk [c])

mutual

/-- Python `json.dumps` with its default separators `", "` and `": "`,
as invoked by `MemoryManager.save` on non-string values. -/
def dumps : PyVal → String
  | .str s => "\"" ++ jsonEscape s ++ "\""
  | .int i => toString i
  | .bool true => "true"
  | .bool false => "false"
  | .none => "null"
  | .list l => "[" ++ dumpsList l ++ "]"
  | .dict l => "\x7b" ++ dumpsDict l ++ "\x7d"

def dumpsList : List PyVal → String
  | [] => ""
  | [v] => dumps v
  | v :: rest => dumps v ++ ", " ++ dumpsList rest

def dumpsDict : List (String × PyVal) → String
  | [] => ""
  | [(k, v)] => "\"" ++ jsonEscape k ++ "\": " ++ dumps v
  | (k, v) :: rest => "\"" ++ jsonEscape k ++ "\": " ++ dumps v ++ ", " ++ dumpsDict rest

end

/-- Escaping inside Python `repr` of a string (common case: single-quoted,
backslash and quote escaped). -/
def reprEscape (s : String) : String :=
  String.join (s.toList.map fun c =>
    if c = '\'' then "\\'" else if c = '\\' then "\\\\"
    else if c = '\n' then "\\n" else if c = '\t' then "\\t"
    else if c = '\r' then "\\r" else String.mk [c])

mutual

/-- Python `repr` for the values in our universe (common case; used
through `pyStr` when `run_task` does `str(action_result.get('data'))`). -/
def pyRepr : PyVal → String
  | .str s => "'" ++ reprEscape s ++ "'"
  | .int i => toString i
  | .bool true => "True"
  | .bool false => "False"
  | .none => "None"
  | .list l => "[" ++ pyReprList l ++ "]"
  | .dict l => "\x7b" ++ pyReprDict l ++ "\x7d"

def pyReprList : List PyVal → String
  | [] => ""
  | [v] => pyRepr v
  | v :: rest => pyRepr v ++ ", " ++ pyReprList rest

def pyReprDict : List (String × PyVal) → String
  | [] => ""
  | [(k, v)] => "'" ++ reprEscape k ++ "': " ++ pyRepr v
  | (k, v) :: rest => "'" ++ reprEscape k ++ "': " ++ pyRepr v ++ ", " ++ pyReprDict rest

end

/-- Python `str(v)`. -/
def pyStr : PyVal → String
  | .str s => s
  | v => pyRepr v

/-! ## Key-Value Session Store — `memory_manager.py`

The SQLite `memory` table is an association list keyed by
`(session_id, key)` holding text (the `value TEXT` column); the
in-process cache (`self.in_memory_cache`) holds Python values.  `sqlite3`
and `json.loads` are external; `json.loads` is a behaviour parameter. -/

/-- Association-list lookup keyed by `(session_id, key)`. -/
def aget {α : Type} : List ((String × String) × α) → String × String → Option α
  | [], _ => Option.none
  | (k', v) :: rest, k => if k' = k then some v else aget rest k

/-- Association-list upsert keyed by `(session_id, key)` — the SQLite
`INSERT ... ON CONFLICT ... DO UPDATE` and the Python dict assignment. -/
def aset {α : Type} (m : List ((String × String) × α)) (k : String × String) (v : α) :
    List ((String × String) × α) :=
  match m with
  | [] => [(k, v)]
  | (k', v') :: rest => if k' = k then (k, v) :: rest else (k', v') :: aset rest k v

/-- `MemoryManager` state: the durable `memory` table rows and the
in-process cache. -/
structure MemoryManager where
  db : List ((String × String) × String)
  cache : List ((String × String) × PyVal)

/-- The `if not isinstance(value, str): value = json.dumps(value)`
conversion at the head of `MemoryManager.save`. -/
def storedText : PyVal → String
  | .str s => s
  | v => dumps v

/-- `MemoryManager.save`: non-string values are converted with
`json.dumps`; the (possibly converted) text is upserted into SQLite and
the same (possibly converted) value — now a string — is placed in the
in-process cache. -/
def MemoryManager.save (mm : MemoryManager) (sessionId key : String) (value : PyVal) :
    MemoryManager :=
  let text := storedText value
  { db := aset mm.db (sessionId, key) text,
    cache := aset mm.cache (sessionId, key) (.str text) }

/-- `MemoryManager.get`: the in-process cache is consulted first and its
entry returned as is; on a cache miss the SQLite row is read, parsed with
`json.loads` when possible (`loads` is the behaviour of `json.loads`:
`Option.none` models `JSONDecodeError`), the cache is populated, and the
parsed (or verbatim) value returned; absent rows give `None`. -/
def MemoryManager.get (mm : MemoryManager) (loads : String → Option PyVal)
    (sessionId key : String) : Option PyVal × MemoryManager :=
  match aget mm.cache (sessionId, key) with
  | some v => (some v, mm)
  | Option.none =>
    match aget mm.db (sessionId, key) with
    | some text =>
      match loads text with
      | some parsed =>
        (some parsed, { mm with cache := aset mm.cache (sessionId, key) parsed })
      | Option.none =>
        (some (.str text), { mm with cache := aset mm.cache (sessionId, key) (.str text) })
    | Option.none => (Option.none, mm)

/-! ## Plan Oracle Interface — `planner.py`

`LLMManager.generate_text` is the external oracle: each consultation is a
behaviour value of type `Except String String` (`.error` models an
exception escaping the call, `.ok` its text).  `json.loads` on the
brace-delimited slice is the behaviour parameter `loads`. -/

/-- The `json_str = response[start:end]` slice of
`create_initial_plan` / `plan_next_action`: from the first `'{'` to the
last `'}'` inclusive. -/
def extractJsonStr (response : List Char) : List Char :=
  pySlice response (firstIdx '{' response) (lastIdx '}' response + 1)

/-- The deterministic fallback plan of `Planner.create_initial_plan`:
one `visit` step per URL, each carrying a single `extract` action. -/
def fallbackPlan (task : String) (urls : List String) : PyVal :=
  .dict [("task", .str task),
         ("steps", .list (urls.map fun url =>
           .dict [("type", .str "visit"), ("url", .str url),
                  ("actions", .list [.dict [("type", .str "extract"),
                                            ("what", .str "content")]])])),
         ("strategy", .str "sequential")]

/-- `Planner.create_initial_plan`.  `geminiModel` is whether
`llm_manager.gemini_model` is set; `genText` the oracle consultation.
Returns the plan together with the number of oracle consultations made. -/
def createInitialPlan (geminiModel : Bool) (genText : Except String String)
    (loads : String → Option PyVal) (task : String) (urls : List String) :
    PyVal × Nat :=
  if !geminiModel then
    (fallbackPlan task urls, 0)
  else
    match genText with
    | .error _ => (fallbackPlan task urls, 1)
    | .ok response =>
      let rl := response.toList
      if '{' ∈ rl ∧ '}' ∈ rl then
        match loads (String.mk (extractJsonStr rl)) with
        | some plan => (plan, 1)
        | Option.none => (fallbackPlan task urls, 1)
      else
        (fallbackPlan task urls, 1)

/-- `Planner.should_reuse_result`.  The prompt (built from `task`, `url`
and the truncated `cachedResult`) only flows into the oracle, whose answer
is the behaviour `genText`; unavailability and any exception both resolve
to `false`. -/
def shouldReuseResult (geminiModel : Bool) (genText : Except String String)
    (task url : String) (cachedResult : PyVal) : Bool :=
  if !geminiModel then
    false
  else
    match genText with
    | .error _ => false
    | .ok response =>
      let responseLower := pyStrip (pyLower response.toList)
      containsSub "yes".toList responseLower

/-- The `no_action` dictionaries `Planner.plan_next_action` falls back to,
each carrying its own reason text. -/
def noActionFallback (reason : String) : PyVal :=
  .dict [("type", .str "no_action"), ("reason", .str reason)]

/-- `Planner.plan_next_action`. -/
def planNextAction (geminiModel : Bool) (genText : Except String String)
    (loads : String → Option PyVal) (task url pageContent : String)
    (ctxActions : List PyVal) : PyVal :=
  if !geminiModel then
    noActionFallback "LLM not available"
  else
    match genText with
    | .error e => noActionFallback ("Error: " ++ e)
    | .ok response =>
      let rl := response.toList
      if '{' ∈ rl ∧ '}' ∈ rl then
        match loads (String.mk (extractJsonStr rl)) with
        | some actionPlan => actionPlan
        | Option.none => noActionFallback "Could not parse action plan"
      else
        noActionFallback "Could not determine appropriate action"

/-! ## Action Dispatcher — `RabbitAgent._execute_action`

The Playwright page is a behaviour record whose operations may raise.
Every invocation of a page capability is logged as a `BCall`, so theorems
can speak about which browser operations an action triggered. -/

/-- Behaviour of the Playwright page used by `_execute_action`.  Arguments
are passed as the Python objects the source hands over (`PyVal`); each
operation may raise.  `queryAll` yields the elements' `text_content()`
results, each of which may itself raise. -/
structure PageBehavior where
  click : PyVal → Except String Unit
  fill : String → PyVal → Except String Unit
  goto : PyVal → Except String Unit
  queryAll : PyVal → Except String (List (Except String PyVal))

/-- A logged invocation of a page capability. -/
inductive BCall where
  | click (selector : PyVal)
  | fill (selector : String) (value : PyVal)
  | goto (url : PyVal)
  | queryAll (selector : PyVal)

/-- Python type names, for the `AttributeError` message raised when
`form_data` is not a dict. -/
def pyTypeName : PyVal → String
  | .str _ => "str"
  | .int _ => "int"
  | .bool _ => "bool"
  | .none => "NoneType"
  | .list _ => "list"
  | .dict _ => "dict"

/-- The `{"status": "error", "message": ...}` outcome of
`_execute_action`'s `except` clause. -/
def errorOutcome (msg : String) : PyVal :=
  .dict [("status", .str "error"), ("message", .str msg)]

/-- The `{"status": "unknown_action", ...}` outcome returned when no
branch of `_execute_action` produced a result. -/
def unknownOutcome (actionType : PyVal) : PyVal :=
  .dict [("status", .str "unknown_action"), ("action_requested", actionType)]

/-- The `for selector, value in form_data.items(): await page.fill(...)`
loop: fills in order, stopping at the first raising fill. -/
def runFills (pb : PageBehavior) : List (String × PyVal) → Except String Unit × List BCall
  | [] => (.ok (), [])
  | (sel, v) :: rest =>
    match pb.fill sel v with
    | .ok _ =>
      let (r, cs) := runFills pb rest
      (r, .fill sel v :: cs)
    | .error e => (.error e, [.fill sel v])

/-- The `text_content()` collection loop of the `extract` branch. -/
def collectTexts : List (Except String PyVal) → Except String (List PyVal)
  | [] => .ok []
  | .ok t :: rest =>
    match collectTexts rest with
    | .ok ts => .ok (t :: ts)
    | .error e => .error e
  | .error e :: _ => .error e

/-- The `fill_form` branch after `form_data` resolved to a dict:
fill every pair, then click the optional truthy submit selector, then
return the success outcome carrying `form_data`. -/
def runFillForm (pb : PageBehavior) (action : PyVal) (formDataVal : PyVal)
    (items : List (String × PyVal)) : PyVal × List BCall :=
  let (r, cs) := runFills pb items
  match r with
  | .error e => (errorOutcome e, cs)
  | .ok _ =>
    let success : PyVal :=
      .dict [("status", .str "success"), ("action", .str "fill_form"),
             ("form_data", formDataVal)]
    match dget action "submit_selector" with
    | some sub =>
      if pyTruthy sub then
        match pb.click sub with
        | .ok _ => (success, cs ++ [.click sub])
        | .error e => (errorOutcome e, cs ++ [.click sub])
      else (success, cs)
    | Option.none => (success, cs)

/-- `RabbitAgent._execute_action`: dispatch over
`action.get("type", "no_action")`; any exception from a page capability is
caught and converted into an error outcome; falling through every branch
gives the `unknown_action` outcome.  Returns the outcome together with the
log of page invocations. -/
def executeAction (pb : PageBehavior) (action : PyVal) : PyVal × List BCall :=
  let actionType := dgetD action "type" (.str "no_action")
  if isStrEq actionType "click" then
    match dget action "selector" with
    | some sel =>
      if pyTruthy sel then
        match pb.click sel with
        | .ok _ =>
          (.dict [("status", .str "success"), ("action", .str "click"),
                  ("selector", sel)], [.click sel])
        | .error e => (errorOutcome e, [.click sel])
      else (unknownOutcome actionType, [])
    | Option.none => (unknownOutcome actionType, [])
  else if isStrEq actionType "fill_form" then
    match dget action "form_data" with
    | some (.dict items) => runFillForm pb action (.dict items) items
    | some other =>
      (errorOutcome ("'" ++ pyTypeName other ++ "' object has no attribute 'items'"), [])
    | Option.none => runFillForm pb action (.dict []) []
  else if isStrEq actionType "navigate" then
    match dget action "url" with
    | some url =>
      if pyTruthy url then
        match pb.goto url with
        | .ok _ =>
          (.dict [("status", .str "success"), ("action", .str "navigate"),
                  ("url", url)], [.goto url])
        | .error e => (errorOutcome e, [.goto url])
      else (unknownOutcome actionType, [])
    | Option.none => (unknownOutcome actionType, [])
  else if isStrEq actionType "extract" then
    match dget action "selector" with
    | some sel =>
      if pyTruthy sel then
        match pb.queryAll sel with
        | .ok elements =>
          match collectTexts elements with
          | .ok texts =>
            (.dict [("status", .str "success"), ("action", .str "extract"),
                    ("data", .list texts)], [.queryAll sel])
          | .error e => (errorOutcome e, [.queryAll sel])
        | .error e => (errorOutcome e, [.queryAll sel])
      else (unknownOutcome actionType, [])
    | Option.none => (unknownOutcome actionType, [])
  else if isStrEq actionType "no_action" then
    (.dict [("status", .str "success"), ("action", .str "no_action")], [])
  else
    (unknownOutcome actionType, [])

/-! ## Resource Capability — the retry loop of `BrowserController.open_page`

Only the navigation retry loop is modelled here; the page-creation calls
preceding it (`context.new_page()`, `clear_cookies`) appear at the agent
level as the `newPage` behaviour. -/

/-- Result of one navigation attempt (`page.goto` plus, on an ok
response, `wait_for_load_state`): the response was ok, or the response
was missing/non-ok (`httpFail`), or the attempt raised. -/
inductive AttemptResult where
  | ok
  | httpFail
  | exn (msg : String)

/-- Observable events of the retry loop. -/
inductive NavEvent where
  | attempt (idx : Nat)
  | sleep (seconds : Nat)
deriving DecidableEq

/-- `self.max_retries` set in `BrowserController.__init__`. -/
def maxRetries : Nat := 3

/-- `self.retry_delay` (seconds) set in `BrowserController.__init__`. -/
def navRetryDelay : Nat := 2

/-- The `while retry_count < self.max_retries` loop of `open_page`:
an ok attempt breaks; a failing or raising attempt is followed by
`asyncio.sleep(self.retry_delay)` and another round.  Returns whether
navigation succeeded together with the event trace.  The loop itself
never raises: exceptions inside an attempt are caught by its `except`. -/
def openPageGo (attempt : Nat → AttemptResult) (delay : Nat) :
    Nat → Nat → Bool × List NavEvent
  | 0, _ => (false, [])
  | fuel + 1, idx =>
    match attempt idx with
    | .ok => (true, [.attempt idx])
    | _ =>
      let (b, evs) := openPageGo attempt delay fuel (idx + 1)
      (b, .attempt idx :: .sleep delay :: evs)

/-- The navigation retry loop of `open_page`, with the source's
constants (3 retries, 2-second delay). -/
def openPage (attempt : Nat → AttemptResult) : Bool × List NavEvent :=
  openPageGo attempt navRetryDelay maxRetries 0

/-- Number of navigation attempts recorded in a trace. -/
def countAttempts (evs : List NavEvent) : Nat :=
  (evs.filter fun e => match e with | .attempt _ => true | _ => false).length

/-! ## The step loop of `RabbitAgent.run_task`

The `while steps_executed < max_steps` loop for one resource.  The plan
oracle consultation is `planNext` (instantiated with `planNextAction` by
the orchestrator), dispatch is `ex` (instantiated with `executeAction`),
and `reExtract` is the `extract_text_from_page` call performed after a
successful action that carried no data (that helper catches internally
and returns text, so it is total). -/

/-- Python's `next_action.get('type') == "no_action"` test. -/
def actionIsNoAction (a : PyVal) : Bool :=
  match dget a "type" with
  | some (.str s) => s = "no_action"
  | _ => false

/-- The `{"url": ..., "action": ..., "result": ...}` record appended to
`session_context[...]["actions_performed"]` after each dispatch. -/
def performedEntry (url : String) (action result : PyVal) : PyVal :=
  .dict [("url", .str url), ("action", action), ("result", result)]

/-- Result of the step loop.  `steps` is the final `steps_executed`;
`content` the final `current_data`; `ctxOut` the grown
`actions_performed` list; `actionsLog` the dispatched
(action, outcome) pairs of this loop in order; `lastAction` the final
value of the `next_action` variable (absent when the loop body never
ran); `contents` the value of `current_data` at the start of each
counted iteration plus the final value; `brokeEarly` whether the loop
ended through the `no_action` break. -/
structure StepLoopOut where
  steps : Nat
  content : String
  ctxOut : List PyVal
  actionsLog : List (PyVal × PyVal)
  lastAction : Option PyVal
  contents : List String
  brokeEarly : Bool

/-- The `current_data` update after a dispatch: `str(data)` on a
successful outcome carrying truthy data, a re-extraction (`reExtracted`)
on a successful outcome without, unchanged (`content`) on a failed
outcome. -/
def nextContent (r : PyVal) (content reExtracted : String) : String :=
  if isStrEq (dgetD r "status" PyVal.none) "success" then
    if truthyOpt (dget r "data") then pyStr ((dget r "data").getD PyVal.none)
    else reExtracted
  else content

/-- One-for-one model of the loop body: request the next action (which
sees the current content and the context's action log), break on
`no_action`, otherwise dispatch, append the performed-action record, and
update `current_data` via `nextContent`. -/
def stepLoopGo (url : String) (planNext : Nat → String → List PyVal → PyVal)
    (ex : Nat → PyVal → PyVal) (reExtract : Nat → String) :
    Nat → Nat → String → List PyVal → StepLoopOut
  | 0, k, content, ctx =>
    ⟨k, content, ctx, [], Option.none, [content], false⟩
  | fuel + 1, k, content, ctx =>
    let a := planNext k content ctx
    if actionIsNoAction a then
      ⟨k, content, ctx, [], some a, [content], true⟩
    else
      let r := ex k a
      let ctx' := ctx ++ [performedEntry url a r]
      let content' := nextContent r content (reExtract k)
      let rest := stepLoopGo url planNext ex reExtract fuel (k + 1) content' ctx'
      ⟨rest.steps, rest.content, rest.ctxOut, (a, r) :: rest.actionsLog,
       some (rest.lastAction.getD a), content :: rest.contents, rest.brokeEarly⟩

/-- The step loop, started with `steps_executed = 0` and the extracted
page content. -/
def stepLoop (url : String) (planNext : Nat → String → List PyVal → PyVal)
    (ex : Nat → PyVal → PyVal) (reExtract : Nat → String)
    (maxSteps : Nat) (content0 : String) (ctx0 : List PyVal) : StepLoopOut :=
  stepLoopGo url planNext ex reExtract maxSteps 0 content0 ctx0

/-! ## Task Orchestrator — `RabbitAgent.run_task`

All collaborators are collected into an `AgentBehavior`.  Oracle
consultations are indexed per call site (the initial-plan request, the
per-URL reuse request, the per-URL per-step next-action request), so an
arbitrary record covers every possible oracle behaviour.  The
`Except String` results model collaborator calls that may raise; helpers
that catch internally and always return (`extract_text_from_page`,
`plan_next_action`, `should_reuse_result`, `MemoryManager.save/get`) are
total. -/

/-- The `urls` argument as received by Python: a proper list, or some
other object (e.g. a single string), which `run_task` rejects. -/
inductive PyUrls where
  | list : List String → PyUrls
  | notList : PyUrls

/-- Collaborator behaviour for one `run_task` call. -/
structure AgentBehavior where
  /-- `browser_controller.initialize_browser()` (may raise). -/
  initBrowser : Except String Unit
  /-- page creation and cookie clearing at the head of `open_page`,
  per URL (may raise). -/
  newPage : String → Except String Unit
  /-- outcome of navigation attempt `i` for a URL. -/
  navAttempt : String → Nat → AttemptResult
  /-- `page.content()` after `open_page`, per URL (may raise). -/
  pageContent : String → Except String String
  /-- `extract_text_from_page` — total (catches internally); indexed by
  URL and by how many extractions happened for that URL (0 = the initial
  one, `k + 1` = the re-extraction after step `k`). -/
  extractText : String → Nat → String
  /-- whether `llm_manager.gemini_model` is configured. -/
  geminiModel : Bool
  /-- oracle text for the initial-plan request. -/
  initialPlanText : Except String String
  /-- oracle text for the reuse request, per URL. -/
  reuseText : String → Except String String
  /-- oracle text for the next-action request, per URL and step. -/
  nextActionText : String → Nat → Except String String
  /-- `json.loads` on oracle-extracted JSON text and on memory rows. -/
  loads : String → Option PyVal
  /-- the page capabilities used by `_execute_action`, per URL. -/
  page : String → PageBehavior
  /-- result of `llm_manager.perform_analysis_task` (may raise). -/
  analysisResult : Except String PyVal
  /-- result of `llm_manager.generate_summary` (may raise). -/
  summaryText : Except String String

/-- The per-task mutable state threaded through the URL loop: the memory
manager and the parts of `session_context[session_id]` plus the collected
`result_data` that the claims observe.  `navLog` records, per processed
URL, the navigation-retry event trace (specification instrumentation). -/
structure LoopState where
  mem : MemoryManager
  visited : List String
  actions : List PyVal
  resultData : List PyVal
  navLog : List (String × List NavEvent)

/-- The cache key `f"task:{task}:{url}"`. -/
def memoryKeyFor (task url : String) : String := "task:" ++ task ++ ":" ++ url

/-- `current_data[:1000] + "..."` truncation before `Save`. -/
def displayTruncate (s : String) : String :=
  if s.length > 1000 then String.mk (s.toList.take 1000) ++ "..." else s

/-- The `f"Visited {url}, performed {steps} action(s). ..."` summary. -/
def memorySummaryFor (url : String) (steps : Nat) (contentLen : Nat) : String :=
  "Visited " ++ url ++ ", performed " ++ toString steps ++
    " action(s). Content length: " ++ toString contentLen ++ "."

/-- One iteration of the `for url in urls` loop of `run_task`:
cache check and reuse decision; on reuse, record the cache-provenance
entry; otherwise open the page (bounded navigation retries that never
raise), read and extract content, run the step loop, truncate, record the
browser-provenance entry, save the value and summary to memory, and
append the URL to the visited list.  A raising collaborator propagates
(to be caught by `run_task`'s top-level handler). -/
def processUrl (b : AgentBehavior) (task sessionId : String) (maxSteps : Nat)
    (st : LoopState) (url : String) : Except String LoopState :=
  let memoryKey := memoryKeyFor task url
  let got := st.mem.get b.loads sessionId memoryKey
  let cachedResult := got.1
  let st1 : LoopState := { st with mem := got.2 }
  if truthyOpt cachedResult &&
      shouldReuseResult b.geminiModel (b.reuseText url) task url
        (cachedResult.getD PyVal.none) then
    .ok { st1 with resultData := st1.resultData ++
      [.dict [("url", .str url), ("data", cachedResult.getD PyVal.none),
              ("source", .str "cache")]] }
  else
    match b.newPage url with
    | .error e => .error e
    | .ok _ =>
      let nav := openPage (b.navAttempt url)
      let st2 : LoopState := { st1 with navLog := st1.navLog ++ [(url, nav.2)] }
      match b.pageContent url with
      | .error e => .error e
      | .ok _content =>
        let extractedData := b.extractText url 0
        let lo := stepLoop url
          (fun k content ctx =>
            planNextAction b.geminiModel (b.nextActionText url k) b.loads
              task url content ctx)
          (fun _k a => (executeAction (b.page url) a).1)
          (fun k => b.extractText url (k + 1))
          maxSteps extractedData st2.actions
        let displayedData := displayTruncate lo.content
        let resultEntry : PyVal :=
          .dict [("url", .str url), ("data", .str displayedData),
                 ("actions", if lo.steps > 0 then lo.lastAction.getD PyVal.none
                             else .dict [("type", .str "extract_content")]),
                 ("source", .str "browser")]
        let mem2 := st2.mem.save sessionId memoryKey (.str displayedData)
        let mem3 := mem2.save sessionId ("summary:" ++ url)
          (.str (memorySummaryFor url lo.steps lo.content.length))
        .ok { mem := mem3,
              visited := st2.visited ++ [url],
              actions := lo.ctxOut,
              resultData := st2.resultData ++ [resultEntry],
              navLog := st2.navLog }

/-- The `for url in urls` loop. -/
def processUrls (b : AgentBehavior) (task sessionId : String) (maxSteps : Nat) :
    LoopState → List String → Except String LoopState
  | st, [] => .ok st
  | st, url :: rest =>
    match processUrl b task sessionId maxSteps st url with
    | .ok st' => processUrls b task sessionId maxSteps st' rest
    | .error e => .error e

/-- Everything `run_task` leaves behind on the success path: the returned
result dictionary, the final memory-manager state, the visited list and
the navigation traces. -/
structure RunOut where
  result : PyVal
  mem : MemoryManager
  visited : List String
  navLog : List (String × List NavEvent)

/-- The body of `run_task` inside its `try`: sanitize, validate the URL
argument, initialize the browser, build the (advisory) initial plan,
process every URL, optionally run the analysis, request the summary, and
assemble the success result.  Any raised exception is an `.error`. -/
def runTaskBody (b : AgentBehavior) (mm0 : MemoryManager) (task0 sessionId : String)
    (urls : PyUrls) (maxSteps : Nat) : Except String RunOut :=
  let task := sanitizeInput task0
  match urls with
  | .notList => .error "URLs must be a list."
  | .list us =>
    match b.initBrowser with
    | .error e => .error e
    | .ok _ =>
      let _initialPlan := createInitialPlan b.geminiModel b.initialPlanText b.loads task us
      match processUrls b task sessionId maxSteps ⟨mm0, [], [], [], []⟩ us with
      | .error e => .error e
      | .ok st =>
        let analysisOrErr : Except String PyVal :=
          if containsSub "sentiment".toList (pyLower task.toList) ||
              containsSub "analyze".toList (pyLower task.toList) then
            match b.analysisResult with
            | .error e => .error e
            | .ok ar =>
              if isStrEq (dgetD ar "status" PyVal.none) "success" then
                .ok (dgetD ar "analysis" (.dict []))
              else
                .ok (.dict [("error", dgetD ar "message" (.str "Analysis failed"))])
          else .ok (.dict [])
        match analysisOrErr with
        | .error e => .error e
        | .ok analysis =>
          match b.summaryText with
          | .error e => .error e
          | .ok summary =>
            .ok { result := .dict [("status", .str "success"),
                    ("summary", .str summary),
                    ("data", .list st.resultData),
                    ("analysis", analysis),
                    ("actions_performed", .list st.actions)],
                  mem := st.mem, visited := st.visited, navLog := st.navLog }

/-- `RabbitAgent.run_task`: the body inside `try`, with the `except`
clause converting any exception into the error-status result dictionary. -/
def runTask (b : AgentBehavior) (mm0 : MemoryManager) (task sessionId : String)
    (urls : PyUrls) (maxSteps : Nat) : PyVal :=
  match runTaskBody b mm0 task sessionId urls maxSteps with
  | .ok out => out.result
  | .error e => .dict [("status", .str "error"), ("message", .str e)]

/-! ## Concrete collaborator behaviours used to witness the theorems -/

/-- A page whose every capability succeeds (clicks and fills do nothing,
queries return no elements). -/
def pbOk : PageBehavior :=
  { click := fun _ => .ok (), fill := fun _ _ => .ok (),
    goto := fun _ => .ok (), queryAll := fun _ => .ok [] }

/-- A collaborator behaviour with no oracle configured, benign page and
memory collaborators, and navigation that fails every attempt. -/
def bNavFail : AgentBehavior :=
  { initBrowser := .ok (), newPage := fun _ => .ok (),
    navAttempt := fun _ _ => .httpFail, pageContent := fun _ => .ok "",
    extractText := fun _ _ => "text", geminiModel := false,
    initialPlanText := .ok "", reuseText := fun _ => .ok "",
    nextActionText := fun _ _ => .ok "", loads := fun _ => Option.none,
    page := fun _ => pbOk, analysisResult := .ok (.dict []),
    summaryText := .ok "done" }

/-- The four traces the navigation retry loop can produce: success on
attempt 0, 1 or 2 (a 2-second sleep separating consecutive attempts), or
three failed attempts each followed by the 2-second sleep. -/
def navShape (evs : List NavEvent) : Prop :=
  evs = [.attempt 0] ∨
  evs = [.attempt 0, .sleep 2, .attempt 1] ∨
  evs = [.attempt 0, .sleep 2, .attempt 1, .sleep 2, .attempt 2] ∨
  evs = [.attempt 0, .sleep 2, .attempt 1, .sleep 2, .attempt 2, .sleep 2]

/-! # Helper lemmas -/

/-- Upsert followed by lookup: the written key reads back the written
value, every other key is unchanged. -/
theorem aget_aset {α : Type} (m : List ((String × String) × α)) (k k' : String × String)
    (v : α) : aget (aset m k' v) k = if k = k' then some v else aget m k := by
  induction m with
  | nil =>
    by_cases h : k = k'
    · subst h; simp [aset, aget]
    · have h' : ¬ (k' = k) := fun hh => h hh.symm
      simp [aset, aget, h, h']
  | cons p rest ih =>
    obtain ⟨pk, pv⟩ := p
    by_cases hpk : pk = k'
    · subst hpk
      by_cases h : k = pk
      · subst h; simp [aset, aget]
      · have h' : ¬ (pk = k) := fun hh => h hh.symm
        simp [aset, aget, h, h']
    · by_cases h : k = pk
      · subst h
        simp [aset, aget, hpk, fun hh => hpk hh]
      · have h' : ¬ (pk = k) := fun hh => h hh.symm
        simp [aset, aget, hpk, h, h', ih]

/-- `containsSub` computes list-infix containment. -/
theorem containsSub_iff_infix (n l : List Char) :
    containsSub n l = true ↔ n <:+: l := by
  induction l with
  | nil =>
    simp [containsSub, List.isEmpty_iff, List.infix_nil]
  | cons c t ih =>
    simp only [containsSub, Bool.or_eq_true, List.isPrefixOf_iff_prefix, ih,
      List.infix_cons_iff]

/-- A list whose characters are all non-whitespace and which occurs
inside `s ++ n ++ t` still occurs after `dropWhile isPyWS`. -/
theorem infix_dropWhile_of_head (n t : List Char) (c : Char) (hc : isPyWS c = false) :
    ∀ s : List Char, (c :: n) <:+: List.dropWhile isPyWS (s ++ (c :: n) ++ t) := by
  intro s
  induction s with
  | nil =>
    simp only [List.nil_append, List.cons_append, List.dropWhile_cons, hc]
    exact List.IsPrefix.isInfix (List.prefix_append (c :: n) t)
  | cons a s' ih =>
    by_cases ha : isPyWS a
    · simpa [List.dropWhile_cons, ha] using ih
    · simp only [List.cons_append, List.dropWhile_cons, ha, Bool.false_eq_true, if_false]
      exact List.infix_cons (by simpa using (List.infix_append s' (c :: n) t))

/-- Stripping leading whitespace never destroys an occurrence of a
non-whitespace, non-empty pattern. -/
theorem infix_dropWhile (n l : List Char) (hne : n ≠ [])
    (hws : ∀ c ∈ n, isPyWS c = false) (h : n <:+: l) :
    n <:+: List.dropWhile isPyWS l := by
  obtain ⟨s, t, rfl⟩ := h
  obtain ⟨c, n', rfl⟩ : ∃ c n', n = c :: n' := by
    cases n with
    | nil => exact absurd rfl hne
    | cons c n' => exact ⟨c, n', rfl⟩
  exact infix_dropWhile_of_head n' t c (hws c (by simp)) s

/-- The stripped string is contained in the original. -/
theorem pyStrip_contained (l : List Char) : pyStrip l <:+: l := by
  unfold pyStrip
  have h1 : List.dropWhile isPyWS l <:+ l := List.dropWhile_suffix _
  have h2 : List.dropWhile isPyWS (List.dropWhile isPyWS l).reverse <:+
      (List.dropWhile isPyWS l).reverse := List.dropWhile_suffix _
  have h3 : (List.dropWhile isPyWS (List.dropWhile isPyWS l).reverse).reverse <+:
      List.dropWhile isPyWS l := by
    rw [← List.reverse_reverse (List.dropWhile isPyWS l)]
    exact List.reverse_prefix.mpr (by simpa using h2)
  exact (h3.isInfix.trans h1.isInfix)

/-- Python `.strip()` neither creates nor destroys occurrences of a
non-empty pattern made of non-whitespace characters. -/
theorem infix_pyStrip_iff (n l : List Char) (hne : n ≠ [])
    (hws : ∀ c ∈ n, isPyWS c = false) :
    n <:+: pyStrip l ↔ n <:+: l := by
  constructor
  · intro h
    exact h.trans (pyStrip_contained l)
  · intro h
    unfold pyStrip
    have h1 : n <:+: List.dropWhile isPyWS l :=
      infix_dropWhile n l hne hws h
    have h2 : n.reverse <:+: (List.dropWhile isPyWS l).reverse :=
      List.reverse_infix.mpr h1
    have hne' : n.reverse ≠ [] := by simpa using hne
    have hws' : ∀ c ∈ n.reverse, isPyWS c = false := fun c hc =>
      hws c (List.mem_reverse.mp hc)
    have h3 : n.reverse <:+: List.dropWhile isPyWS (List.dropWhile isPyWS l).reverse :=
      infix_dropWhile n.reverse _ hne' hws' h2
    simpa using List.reverse_infix.mpr h3

/-- Upsert then lookup at the written key. -/
theorem aget_aset_self {α : Type} (m : List ((String × String) × α))
    (k : String × String) (v : α) : aget (aset m k v) k = some v := by
  rw [aget_aset]; simp

/-- Upsert preserves presence of every key. -/
theorem aget_aset_isSome {α : Type} (m : List ((String × String) × α))
    (k k' : String × String) (v : α) (h : (aget m k).isSome) :
    (aget (aset m k' v) k).isSome := by
  rw [aget_aset]
  by_cases hk : k = k' <;> simp [hk, h]

/-- `MemoryManager.get` never changes the durable rows — only the
in-process cache. -/
theorem MemoryManager.get_db (mm : MemoryManager) (loads : String → Option PyVal)
    (s k : String) : ((mm.get loads s k).2).db = mm.db := by
  unfold MemoryManager.get
  split
  · rfl
  · split
    · split <;> rfl
    · rfl

/-- The navigation retry loop produces one of exactly four traces:
success on attempt 0, 1 or 2, or three failures — attempts separated by
the 2-second sleep, each failed attempt followed by one. -/
theorem openPage_cases (attempt : Nat → AttemptResult) :
    openPage attempt = (true, [.attempt 0]) ∨
    openPage attempt = (true, [.attempt 0, .sleep 2, .attempt 1]) ∨
    openPage attempt = (true, [.attempt 0, .sleep 2, .attempt 1, .sleep 2, .attempt 2]) ∨
    openPage attempt =
      (false, [.attempt 0, .sleep 2, .attempt 1, .sleep 2, .attempt 2, .sleep 2]) := by
  cases h0 : attempt 0 <;> cases h1 : attempt 1 <;> cases h2 : attempt 2 <;>
    simp [openPage, openPageGo, maxRetries, navRetryDelay, h0, h1, h2]

/-- Every trace of the retry loop has the `navShape` form and at most 3
attempts. -/
theorem navShape_openPage (attempt : Nat → AttemptResult) :
    navShape (openPage attempt).2 ∧ countAttempts (openPage attempt).2 ≤ 3 := by
  rcases openPage_cases attempt with h | h | h | h <;> rw [h] <;>
    exact ⟨by simp [navShape], by decide⟩

/-- When the reuse decision resolves to `false` for the URL (through
oracle unavailability, failure, or a negative answer — so the resource is
fetched) and page creation/content reads do not raise, one URL iteration
always completes — whatever the navigation attempts do — and its `Save`
step runs: the value and summary rows are written, the URL is appended to
the visited list, and the navigation trace is recorded. -/
theorem processUrl_ok (b : AgentBehavior) (task sessionId : String) (maxSteps : Nat)
    (hreuse : ∀ w v, shouldReuseResult b.geminiModel (b.reuseText w) task w v = false)
    (hnp : ∀ w, b.newPage w = Except.ok ())
    (hpc : ∀ w, ∃ c, b.pageContent w = Except.ok c)
    (st : LoopState) (url : String) :
    ∃ st', processUrl b task sessionId maxSteps st url = .ok st' ∧
      st'.visited = st.visited ++ [url] ∧
      st'.navLog = st.navLog ++ [(url, (openPage (b.navAttempt url)).2)] ∧
      (∀ k, (aget st.mem.db k).isSome → (aget st'.mem.db k).isSome) ∧
      (aget st'.mem.db (sessionId, memoryKeyFor task url)).isSome ∧
      (aget st'.mem.db (sessionId, "summary:" ++ url)).isSome := by
  obtain ⟨c, hc⟩ := hpc url
  have hreuse : ∀ v, shouldReuseResult b.geminiModel (b.reuseText url) task url v = false :=
    hreuse url
  simp only [processUrl, hreuse, Bool.and_false, Bool.false_eq_true, if_false,
    hnp url, hc]
  refine ⟨_, rfl, rfl, rfl, ?_, ?_, ?_⟩
  · intro k hk
    simp only [MemoryManager.save, MemoryManager.get_db]
    exact aget_aset_isSome _ _ _ _ (aget_aset_isSome _ _ _ _ hk)
  · simp only [MemoryManager.save, MemoryManager.get_db]
    exact aget_aset_isSome _ _ _ _ (by rw [aget_aset_self]; rfl)
  · simp only [MemoryManager.save]
    rw [aget_aset_self]
    rfl

/-- The URL loop under the hypotheses of `processUrl_ok`: it completes,
visited entries and durable rows persist, every recorded navigation trace
has the bounded retry shape, and every URL of the list got its `Save`
(value row, summary row, visited entry). -/
theorem processUrls_ok (b : AgentBehavior) (task sessionId : String) (maxSteps : Nat)
    (hreuse : ∀ w v, shouldReuseResult b.geminiModel (b.reuseText w) task w v = false)
    (hnp : ∀ w, b.newPage w = Except.ok ())
    (hpc : ∀ w, ∃ c, b.pageContent w = Except.ok c) :
    ∀ (us : List String) (st : LoopState),
      ∃ st', processUrls b task sessionId maxSteps st us = .ok st' ∧
        (∀ v ∈ st.visited, v ∈ st'.visited) ∧
        ((∀ e ∈ st.navLog, navShape e.2 ∧ countAttempts e.2 ≤ 3) →
          ∀ e ∈ st'.navLog, navShape e.2 ∧ countAttempts e.2 ≤ 3) ∧
        (∀ k, (aget st.mem.db k).isSome → (aget st'.mem.db k).isSome) ∧
        (∀ u ∈ us, u ∈ st'.visited ∧
          (aget st'.mem.db (sessionId, memoryKeyFor task u)).isSome ∧
          (aget st'.mem.db (sessionId, "summary:" ++ u)).isSome) := by
  intro us
  induction us with
  | nil =>
    intro st
    exact ⟨st, rfl, fun v hv => hv, fun h => h, fun k hk => hk, by simp⟩
  | cons u rest ih =>
    intro st
    obtain ⟨st1, hst1, hvis1, hnav1, hpre1, hval1, hsum1⟩ :=
      processUrl_ok b task sessionId maxSteps hreuse hnp hpc st u
    obtain ⟨st', hst', hvis2, hnav2, hpre2, hrest⟩ := ih st1
    refine ⟨st', ?_, ?_, ?_, ?_, ?_⟩
    · simp only [processUrls, hst1, hst']
    · intro v hv
      exact hvis2 v (by rw [hvis1]; exact List.mem_append_left _ hv)
    · intro hst
      refine hnav2 ?_
      intro e he
      rw [hnav1] at he
      rcases List.mem_append.mp he with he | he
      · exact hst e he
      · have : e = (u, (openPage (b.navAttempt u)).2) := by simpa using he
        rw [this]
        exact navShape_openPage (b.navAttempt u)
    · intro k hk
      exact hpre2 k (hpre1 k hk)
    · intro w hw
      rcases List.mem_cons.mp hw with hw | hw
      · subst hw
        exact ⟨hvis2 w (by rw [hvis1]; exact List.mem_append_right _ (by simp)),
          hpre2 _ hval1, hpre2 _ hsum1⟩
      · exact hrest w hw

/-! # Claims -/

/-- C2 counterexample: `put` then `get` of the empty list (a
JSON-serializable non-string value) on a fresh store returns the JSON
text `"[]"`, not a value structurally equal to the empty list: the write
populated the in-process cache with the serialized string, and the read
is served from that cache. -/
theorem memory_roundtrip_counterexample :
    (((MemoryManager.mk [] []).save "s" "k" (PyVal.list [])).get
        (fun _ => Option.none) "s" "k").1 ≠ some (PyVal.list []) := by
  have h1 : (((MemoryManager.mk [] []).save "s" "k" (PyVal.list [])).get
      (fun _ => Option.none) "s" "k").1 = some (PyVal.str "[]") := rfl
  rw [h1]
  simp

/-- C2 (corrected): a `get(session, key)` performed after
`put(session, key, value)` on the same store is always served from the
in-process cache, which the write populated with the stored *text*: the
returned value is the value itself when it was a string, and the
JSON-serialized text of the value otherwise — the original structure of a
dict or list is not restored on this path. -/
theorem memory_get_after_put (mm : MemoryManager) (loads : String → Option PyVal)
    (sessionId key : String) (value : PyVal) :
    ((mm.save sessionId key value).get loads sessionId key).1 =
      some (.str (storedText value)) := by
  unfold MemoryManager.save MemoryManager.get
  simp [aget_aset]

/-- C6: whenever the reuse oracle is unavailable (`gemini_model` unset)
or the consultation raises, `should_reuse_result` returns `false`,
whatever the task, URL and cached value. -/
theorem shouldReuse_failSafe (gm : Bool) (genText : Except String String)
    (task url : String) (cached : PyVal)
    (h : gm = false ∨ ∃ e, genText = Except.error e) :
    shouldReuseResult gm genText task url cached = false := by
  rcases h with h | ⟨e, he⟩
  · subst h; rfl
  · subst he; cases gm <;> rfl

/-- Witness for C6 at a concrete input (oracle unavailable, cache holds
a value whose text even contains "yes"). -/
theorem shouldReuse_failSafe_witness :
    shouldReuseResult false (Except.ok "yes") "task" "https://a" (PyVal.str "yes") = false :=
  shouldReuse_failSafe false (Except.ok "yes") "task" "https://a" (PyVal.str "yes")
    (Or.inl rfl)

/-- C10: with the oracle configured and a response text obtained without
an exception, `should_reuse_result` answers `true` exactly when the
lowercased response contains the substring `"yes"` anywhere (the
trailing `.strip()` in the source cannot affect a whitespace-free
pattern). -/
theorem shouldReuse_yes_substring (response task url : String) (cached : PyVal) :
    shouldReuseResult true (Except.ok response) task url cached =
      containsSub "yes".toList (pyLower response.toList) := by
  show containsSub "yes".toList (pyStrip (pyLower response.toList)) =
    containsSub "yes".toList (pyLower response.toList)
  rw [Bool.eq_iff_iff, containsSub_iff_infix, containsSub_iff_infix]
  exact infix_pyStrip_iff "yes".toList (pyLower response.toList)
    (by decide) (by decide)

/-- C7: when the plan oracle is unavailable, or its consultation raises,
or its response lacks braces or fails to parse as JSON,
`create_initial_plan` returns the deterministic fallback plan — exactly
one step per resource, each carrying the single `extract` action — and
makes no oracle consultation beyond the (at most one) original request:
the consultation count is 0 when the oracle is unavailable and 1
otherwise. -/
theorem initialPlan_fallback (gm : Bool) (genText : Except String String)
    (loads : String → Option PyVal) (task : String) (urls : List String)
    (h : gm = false ∨ (∃ e, genText = Except.error e) ∨
      (∃ r, genText = Except.ok r ∧
        (¬('{' ∈ r.toList ∧ '}' ∈ r.toList) ∨
          loads (String.mk (extractJsonStr r.toList)) = Option.none))) :
    (createInitialPlan gm genText loads task urls).1 = fallbackPlan task urls ∧
    (createInitialPlan gm genText loads task urls).2 = (if gm then 1 else 0) ∧
    ∃ steps : List PyVal,
      dget (fallbackPlan task urls) "steps" = some (.list steps) ∧
      steps.length = urls.length ∧
      ∀ s ∈ steps, dget s "actions" =
        some (.list [.dict [("type", .str "extract"), ("what", .str "content")]]) := by
  have hmain : gm = true →
      createInitialPlan gm genText loads task urls = (fallbackPlan task urls, 1) := by
    intro hgm
    subst hgm
    rcases h with h | ⟨e, he⟩ | ⟨r, hr, hfail⟩
    · exact absurd h (by simp)
    · subst he; rfl
    · subst hr
      by_cases hb : '{' ∈ r.toList ∧ '}' ∈ r.toList
      · rcases hfail with hfail | hfail
        · exact absurd hb hfail
        · have hb' : '{' ∈ r.data ∧ '}' ∈ r.data := hb
          have hfail' : loads (String.mk (extractJsonStr r.data)) = Option.none := hfail
          simp [createInitialPlan, hb', hfail']
      · have hb' : ¬('{' ∈ r.data ∧ '}' ∈ r.data) := hb
        simp [createInitialPlan, hb']
  refine ⟨?_, ?_, ?_⟩
  · cases gm with
    | false => rfl
    | true => rw [hmain rfl]
  · cases gm with
    | false => rfl
    | true => rw [hmain rfl]; rfl
  · refine ⟨urls.map fun url =>
      .dict [("type", .str "visit"), ("url", .str url),
             ("actions", .list [.dict [("type", .str "extract"),
                                       ("what", .str "content")]])], ?_, ?_, ?_⟩
    · rfl
    · simp
    · intro s hs
      obtain ⟨url, _, rfl⟩ := List.mem_map.mp hs
      rfl

/-- Witness for C7: oracle unavailable, two resources. -/
theorem initialPlan_fallback_witness :
    (createInitialPlan false (Except.ok "{}") (fun _ => Option.none) "t"
        ["https://a", "https://b"]).1 = fallbackPlan "t" ["https://a", "https://b"] ∧
    (createInitialPlan false (Except.ok "{}") (fun _ => Option.none) "t"
        ["https://a", "https://b"]).2 = (if false then 1 else 0) ∧
    ∃ steps : List PyVal,
      dget (fallbackPlan "t" ["https://a", "https://b"]) "steps" = some (.list steps) ∧
      steps.length = (["https://a", "https://b"] : List String).length ∧
      ∀ s ∈ steps, dget s "actions" =
        some (.list [.dict [("type", .str "extract"), ("what", .str "content")]]) :=
  initialPlan_fallback false (Except.ok "{}") (fun _ => Option.none) "t"
    ["https://a", "https://b"] (Or.inl rfl)

/-- C8 counterexample: on a brace-free oracle response the result is a
`no_action` dictionary whose `reason` is "Could not determine appropriate
action", which is *not* the same value as the oracle-unavailable fallback
(whose `reason` is "LLM not available"): the claim's "the same no-action
fallback" fails on the `reason` field. -/
theorem nextAction_fallback_counterexample :
    planNextAction true (Except.ok "hello") (fun _ => Option.none) "t" "u" "c" [] ≠
      planNextAction false (Except.ok "hello") (fun _ => Option.none) "t" "u" "c" [] := by
  have h1 : planNextAction true (Except.ok "hello") (fun _ => Option.none) "t" "u" "c" [] =
      noActionFallback "Could not determine appropriate action" := rfl
  have h2 : planNextAction false (Except.ok "hello") (fun _ => Option.none) "t" "u" "c" [] =
      noActionFallback "LLM not available" := rfl
  rw [h1, h2]
  simp [noActionFallback]

/-- C8 (corrected): when the oracle's text has no brace-delimited JSON
object or the extracted slice fails to parse, `plan_next_action` returns
a `no_action` fallback dictionary — of the same `type` tag as the
oracle-unavailable fallback, though with a failure-specific `reason` —
and (being a total function of the response) propagates no exception. -/
theorem nextAction_parse_failure (loads : String → Option PyVal)
    (response task url content : String) (ctx : List PyVal)
    (h : ¬('{' ∈ response.toList ∧ '}' ∈ response.toList) ∨
      loads (String.mk (extractJsonStr response.toList)) = Option.none) :
    (planNextAction true (Except.ok response) loads task url content ctx =
        noActionFallback "Could not determine appropriate action" ∨
      planNextAction true (Except.ok response) loads task url content ctx =
        noActionFallback "Could not parse action plan") ∧
    dget (planNextAction true (Except.ok response) loads task url content ctx) "type" =
      some (.str "no_action") ∧
    dget (planNextAction false (Except.ok response) loads task url content ctx) "type" =
      some (.str "no_action") := by
  by_cases hb : '{' ∈ response.toList ∧ '}' ∈ response.toList
  · rcases h with h | h
    · exact absurd hb h
    · have hb' : '{' ∈ response.data ∧ '}' ∈ response.data := hb
      have h' : loads (String.mk (extractJsonStr response.data)) = Option.none := h
      have he : planNextAction true (Except.ok response) loads task url content ctx =
          noActionFallback "Could not parse action plan" := by
        simp [planNextAction, hb', h']
      rw [he]
      exact ⟨Or.inr rfl, rfl, rfl⟩
  · have hb' : ¬('{' ∈ response.data ∧ '}' ∈ response.data) := hb
    have he : planNextAction true (Except.ok response) loads task url content ctx =
        noActionFallback "Could not determine appropriate action" := by
      simp [planNextAction, hb']
    rw [he]
    exact ⟨Or.inl rfl, rfl, rfl⟩

/-- Witness for C8's corrected statement at the brace-free response
"hello". -/
theorem nextAction_parse_failure_witness :
    (planNextAction true (Except.ok "hello") (fun _ => Option.none) "t" "u" "c" [] =
        noActionFallback "Could not determine appropriate action" ∨
      planNextAction true (Except.ok "hello") (fun _ => Option.none) "t" "u" "c" [] =
        noActionFallback "Could not parse action plan") ∧
    dget (planNextAction true (Except.ok "hello") (fun _ => Option.none) "t" "u" "c" [])
      "type" = some (.str "no_action") ∧
    dget (planNextAction false (Except.ok "hello") (fun _ => Option.none) "t" "u" "c" [])
      "type" = some (.str "no_action") :=
  nextAction_parse_failure (fun _ => Option.none) "hello" "t" "u" "c" []
    (Or.inl (by decide))

/-- C9 counterexample: a `fill_form` action carrying no field/value pairs
is *not* rejected with an unrecognized/failure outcome — `_execute_action`
returns a success-status outcome (with the empty `form_data`), although
the browser is indeed not invoked. -/
theorem executeAction_fillForm_counterexample :
    dget (executeAction pbOk (.dict [("type", .str "fill_form")])).1 "status" =
      some (.str "success") ∧
    (executeAction pbOk (.dict [("type", .str "fill_form")])).2 = [] :=
  ⟨rfl, rfl⟩

/-- C9 (corrected): a `navigate` action without a `url`, a `click`
action without a `selector`, and an `extract` action without a
`selector` each yield the `unknown_action` outcome and invoke no browser
capability; but a `fill_form` action without field/value pairs (and with
no submit selector) performs no browser call yet returns a
*success*-status outcome carrying the empty `form_data`. -/
theorem executeAction_missing_params (pb : PageBehavior) (a : PyVal) :
    (dget a "type" = some (.str "navigate") → dget a "url" = Option.none →
      executeAction pb a = (unknownOutcome (.str "navigate"), [])) ∧
    (dget a "type" = some (.str "click") → dget a "selector" = Option.none →
      executeAction pb a = (unknownOutcome (.str "click"), [])) ∧
    (dget a "type" = some (.str "extract") → dget a "selector" = Option.none →
      executeAction pb a = (unknownOutcome (.str "extract"), [])) ∧
    (dget a "type" = some (.str "fill_form") → dget a "form_data" = Option.none →
      dget a "submit_selector" = Option.none →
      executeAction pb a =
        (.dict [("status", .str "success"), ("action", .str "fill_form"),
                ("form_data", .dict [])], [])) := by
  refine ⟨?_, ?_, ?_, ?_⟩
  · intro ht hu
    simp [executeAction, dgetD, ht, hu, isStrEq]
  · intro ht hs
    simp [executeAction, dgetD, ht, hs, isStrEq]
  · intro ht hs
    simp [executeAction, dgetD, ht, hs, isStrEq]
  · intro ht hf hs
    simp [executeAction, dgetD, ht, hf, hs, isStrEq, runFillForm, runFills]

/-- Step-loop counting invariants, by induction on the remaining fuel:
the dispatched iterations are bounded by the fuel, the final
`steps_executed` counts exactly the dispatched iterations, a loop that
did not break ran the full fuel, and a loop that broke dispatched
strictly fewer iterations than the fuel allowed. -/
theorem stepLoopGo_count (url : String) (pn : Nat → String → List PyVal → PyVal)
    (ex : Nat → PyVal → PyVal) (re : Nat → String) :
    ∀ (fuel k : Nat) (content : String) (ctx : List PyVal),
      (stepLoopGo url pn ex re fuel k content ctx).actionsLog.length ≤ fuel ∧
      (stepLoopGo url pn ex re fuel k content ctx).steps =
        k + (stepLoopGo url pn ex re fuel k content ctx).actionsLog.length ∧
      ((stepLoopGo url pn ex re fuel k content ctx).brokeEarly = false →
        (stepLoopGo url pn ex re fuel k content ctx).actionsLog.length = fuel) ∧
      ((stepLoopGo url pn ex re fuel k content ctx).brokeEarly = true →
        (stepLoopGo url pn ex re fuel k content ctx).actionsLog.length < fuel) := by
  intro fuel
  induction fuel with
  | zero =>
    intro k content ctx
    refine ⟨Nat.le_refl _, by simp [stepLoopGo], fun _ => rfl,
      fun h => absurd h (by simp [stepLoopGo])⟩
  | succ fuel ih =>
    intro k content ctx
    by_cases hna : actionIsNoAction (pn k content ctx) = true
    · refine ⟨?_, ?_, ?_, ?_⟩ <;> simp [stepLoopGo, hna]
    · rw [Bool.not_eq_true] at hna
      obtain ⟨ih1, ih2, ih3, ih4⟩ := ih (k + 1)
        (nextContent (ex k (pn k content ctx)) content (re k))
        (ctx ++ [performedEntry url (pn k content ctx) (ex k (pn k content ctx))])
      refine ⟨?_, ?_, ?_, ?_⟩ <;> simp only [stepLoopGo, hna, Bool.false_eq_true,
        if_false, List.length_cons]
      · omega
      · omega
      · intro h; rw [ih3 h]
      · intro h; exact Nat.succ_lt_succ (ih4 h)

/-- When the step loop breaks early, the last planned action (the final
value of the `next_action` variable) is the `no_action` that caused the
break, and it was not dispatched. -/
theorem stepLoopGo_broke (url : String) (pn : Nat → String → List PyVal → PyVal)
    (ex : Nat → PyVal → PyVal) (re : Nat → String) :
    ∀ (fuel k : Nat) (content : String) (ctx : List PyVal),
      (stepLoopGo url pn ex re fuel k content ctx).brokeEarly = true →
      ∃ la, (stepLoopGo url pn ex re fuel k content ctx).lastAction = some la ∧
        actionIsNoAction la = true := by
  intro fuel
  induction fuel with
  | zero =>
    intro k content ctx h
    exact absurd h (by simp [stepLoopGo])
  | succ fuel ih =>
    intro k content ctx h
    by_cases hna : actionIsNoAction (pn k content ctx) = true
    · exact ⟨pn k content ctx, by simp [stepLoopGo, hna], hna⟩
    · rw [Bool.not_eq_true] at hna
      simp only [stepLoopGo, hna, Bool.false_eq_true, if_false] at h ⊢
      obtain ⟨la, hla, hno⟩ := ih (k + 1)
        (nextContent (ex k (pn k content ctx)) content (re k))
        (ctx ++ [performedEntry url (pn k content ctx) (ex k (pn k content ctx))]) h
      exact ⟨la, by rw [hla]; rfl, hno⟩

/-- No dispatched action of the step loop has the `no_action` type: the
break happens before a `no_action` would be dispatched. -/
theorem stepLoopGo_dispatched (url : String) (pn : Nat → String → List PyVal → PyVal)
    (ex : Nat → PyVal → PyVal) (re : Nat → String) :
    ∀ (fuel k : Nat) (content : String) (ctx : List PyVal),
      ∀ p ∈ (stepLoopGo url pn ex re fuel k content ctx).actionsLog,
        actionIsNoAction p.1 = false := by
  intro fuel
  induction fuel with
  | zero =>
    intro k content ctx p hp
    simp [stepLoopGo] at hp
  | succ fuel ih =>
    intro k content ctx p hp
    by_cases hna : actionIsNoAction (pn k content ctx) = true
    · simp [stepLoopGo, hna] at hp
    · rw [Bool.not_eq_true] at hna
      simp only [stepLoopGo, hna, Bool.false_eq_true, if_false, List.mem_cons] at hp
      rcases hp with hp | hp
      · rw [hp]; exact hna
      · exact ih (k + 1)
          (nextContent (ex k (pn k content ctx)) content (re k))
          (ctx ++ [performedEntry url (pn k content ctx) (ex k (pn k content ctx))]) p hp

/-- The content trace has one entry per dispatched iteration plus the
final value, and it starts at the loop's initial content. -/
theorem stepLoopGo_contents (url : String) (pn : Nat → String → List PyVal → PyVal)
    (ex : Nat → PyVal → PyVal) (re : Nat → String) :
    ∀ (fuel k : Nat) (content : String) (ctx : List PyVal),
      (stepLoopGo url pn ex re fuel k content ctx).contents.length =
        (stepLoopGo url pn ex re fuel k content ctx).actionsLog.length + 1 ∧
      (stepLoopGo url pn ex re fuel k content ctx).contents.getD 0 "" = content := by
  intro fuel
  induction fuel with
  | zero =>
    intro k content ctx
    exact ⟨rfl, rfl⟩
  | succ fuel ih =>
    intro k content ctx
    by_cases hna : actionIsNoAction (pn k content ctx) = true
    · refine ⟨?_, ?_⟩ <;> simp [stepLoopGo, hna]
    · rw [Bool.not_eq_true] at hna
      obtain ⟨ih1, ih2⟩ := ih (k + 1)
        (nextContent (ex k (pn k content ctx)) content (re k))
        (ctx ++ [performedEntry url (pn k content ctx) (ex k (pn k content ctx))])
      refine ⟨?_, ?_⟩ <;> simp only [stepLoopGo, hna, Bool.false_eq_true, if_false,
        List.length_cons]
      · rw [ih1]
      · rfl

/-- Across any iteration whose dispatched outcome does not have success
status, `current_data` is unchanged: the entry `i + 1` of the content
trace equals entry `i`. -/
theorem stepLoopGo_failure_preserves (url : String)
    (pn : Nat → String → List PyVal → PyVal)
    (ex : Nat → PyVal → PyVal) (re : Nat → String) :
    ∀ (fuel k : Nat) (content : String) (ctx : List PyVal),
      ∀ i, i < (stepLoopGo url pn ex re fuel k content ctx).actionsLog.length →
        isStrEq (dgetD ((stepLoopGo url pn ex re fuel k content ctx).actionsLog.getD i
            (PyVal.none, PyVal.none)).2 "status" PyVal.none) "success" = false →
        (stepLoopGo url pn ex re fuel k content ctx).contents.getD (i + 1) "" =
          (stepLoopGo url pn ex re fuel k content ctx).contents.getD i "" := by
  intro fuel
  induction fuel with
  | zero =>
    intro k content ctx i hi
    simp [stepLoopGo] at hi
  | succ fuel ih =>
    intro k content ctx i hi hfail
    by_cases hna : actionIsNoAction (pn k content ctx) = true
    · simp [stepLoopGo, hna] at hi
    · rw [Bool.not_eq_true] at hna
      simp only [stepLoopGo, hna, Bool.false_eq_true, if_false, List.length_cons] at hi hfail ⊢
      cases i with
      | zero =>
        simp only [List.getD_cons_zero] at hfail
        have hhead := (stepLoopGo_contents url pn ex re fuel (k + 1)
          (nextContent (ex k (pn k content ctx)) content (re k))
          (ctx ++ [performedEntry url (pn k content ctx) (ex k (pn k content ctx))])).2
        simp only [List.getD_cons_succ, List.getD_cons_zero]
        rw [hhead]
        unfold nextContent
        rw [hfail]
        simp
      | succ j =>
        simp only [List.getD_cons_succ] at hfail ⊢
        exact ih (k + 1)
          (nextContent (ex k (pn k content ctx)) content (re k))
          (ctx ++ [performedEntry url (pn k content ctx) (ex k (pn k content ctx))])
          j (by omega) hfail

/-- C3: the step loop dispatches at most `max_steps` iterations (the
final `steps_executed` counts them, one dispatch per counted iteration);
no dispatched action has type `no_action`; and when the loop ends through
the `no_action` break it has executed strictly fewer than `max_steps`
iterations, the breaking action being the last planned and never
dispatched. -/
theorem stepLoop_bounded (url : String) (pn : Nat → String → List PyVal → PyVal)
    (ex : Nat → PyVal → PyVal) (re : Nat → String) (maxSteps : Nat)
    (content0 : String) (ctx0 : List PyVal) :
    (stepLoop url pn ex re maxSteps content0 ctx0).steps ≤ maxSteps ∧
    (stepLoop url pn ex re maxSteps content0 ctx0).actionsLog.length =
      (stepLoop url pn ex re maxSteps content0 ctx0).steps ∧
    (∀ p ∈ (stepLoop url pn ex re maxSteps content0 ctx0).actionsLog,
      actionIsNoAction p.1 = false) ∧
    ((stepLoop url pn ex re maxSteps content0 ctx0).brokeEarly = true →
      (stepLoop url pn ex re maxSteps content0 ctx0).steps < maxSteps ∧
      ∃ la, (stepLoop url pn ex re maxSteps content0 ctx0).lastAction = some la ∧
        actionIsNoAction la = true) := by
  simp only [stepLoop]
  obtain ⟨h1, h2, _h3, h4⟩ := stepLoopGo_count url pn ex re maxSteps 0 content0 ctx0
  refine ⟨by omega, by omega, stepLoopGo_dispatched url pn ex re maxSteps 0 content0 ctx0, ?_⟩
  intro hbk
  exact ⟨by have := h4 hbk; omega, stepLoopGo_broke url pn ex re maxSteps 0 content0 ctx0 hbk⟩

/-- Witness for C3: an oracle that immediately answers `no_action` under
a bound of 3 — the loop stops at zero iterations, strictly below the
bound, with the `no_action` as last planned action. -/
theorem stepLoop_bounded_witness :
    (stepLoop "u" (fun _ _ _ => noActionFallback "done") (fun _ a => a) (fun _ => "")
        3 "c" []).steps ≤ 3 ∧
    ((stepLoop "u" (fun _ _ _ => noActionFallback "done") (fun _ a => a) (fun _ => "")
        3 "c" []).steps < 3 ∧
      ∃ la, (stepLoop "u" (fun _ _ _ => noActionFallback "done") (fun _ a => a)
          (fun _ => "") 3 "c" []).lastAction = some la ∧
        actionIsNoAction la = true) :=
  ⟨(stepLoop_bounded "u" (fun _ _ _ => noActionFallback "done") (fun _ a => a)
      (fun _ => "") 3 "c" []).1,
   (stepLoop_bounded "u" (fun _ _ _ => noActionFallback "done") (fun _ a => a)
      (fun _ => "") 3 "c" []).2.2.2 rfl⟩

/-- C4: a failed outcome (status not success) leaves `current_data`
unchanged for the next iteration (trace entry `i + 1` equals entry `i`),
and the loop never terminates because of it — the only exits are the
`no_action` break and the `max_steps` bound, after which the resource
proceeds to `Save`. -/
theorem stepLoop_failure_isolated (url : String)
    (pn : Nat → String → List PyVal → PyVal)
    (ex : Nat → PyVal → PyVal) (re : Nat → String) (maxSteps : Nat)
    (content0 : String) (ctx0 : List PyVal) :
    (stepLoop url pn ex re maxSteps content0 ctx0).contents.length =
      (stepLoop url pn ex re maxSteps content0 ctx0).steps + 1 ∧
    (∀ i, i < (stepLoop url pn ex re maxSteps content0 ctx0).steps →
      isStrEq (dgetD ((stepLoop url pn ex re maxSteps content0 ctx0).actionsLog.getD i
          (PyVal.none, PyVal.none)).2 "status" PyVal.none) "success" = false →
      (stepLoop url pn ex re maxSteps content0 ctx0).contents.getD (i + 1) "" =
        (stepLoop url pn ex re maxSteps content0 ctx0).contents.getD i "") ∧
    ((stepLoop url pn ex re maxSteps content0 ctx0).brokeEarly = true ∨
      (stepLoop url pn ex re maxSteps content0 ctx0).steps = maxSteps) := by
  simp only [stepLoop]
  obtain ⟨hc1, _hc2⟩ := stepLoopGo_contents url pn ex re maxSteps 0 content0 ctx0
  obtain ⟨_h1, h2, h3, _h4⟩ := stepLoopGo_count url pn ex re maxSteps 0 content0 ctx0
  refine ⟨by omega, ?_, ?_⟩
  · intro i hi hf
    exact stepLoopGo_failure_preserves url pn ex re maxSteps 0 content0 ctx0 i
      (by omega) hf
  · cases hbk : (stepLoopGo url pn ex re maxSteps 0 content0 ctx0).brokeEarly with
    | true => exact Or.inl rfl
    | false => exact Or.inr (by have := h3 hbk; omega)

/-- Witness for C4: an oracle that always asks for a selector-less
`click` (whose dispatch yields the `unknown_action` failure outcome)
under a bound of 2 — the loop still runs both iterations and the content
is unchanged across the first failed iteration. -/
theorem stepLoop_failure_isolated_witness :
    (stepLoop "u" (fun _ _ _ => .dict [("type", .str "click")])
        (fun _ a => (executeAction pbOk a).1) (fun _ => "re") 2 "c" []).contents.getD 1 "" =
      (stepLoop "u" (fun _ _ _ => .dict [("type", .str "click")])
        (fun _ a => (executeAction pbOk a).1) (fun _ => "re") 2 "c" []).contents.getD 0 "" :=
  (stepLoop_failure_isolated "u" (fun _ _ _ => .dict [("type", .str "click")])
      (fun _ a => (executeAction pbOk a).1) (fun _ => "re") 2 "c" []).2.1 0
    (by decide) (by decide)

/-- C5: for every resource fetched through the browser, the navigation
trace shows at most 3 attempts, consecutive attempts separated by the
fixed 2-second delay (the four `navShape` traces), and the retry loop
itself raises nothing — whatever the navigation attempts do (including
all of them failing), processing of the resource still reaches `Save`:
its value row and summary row are written and it is appended to the
visited list.  The other collaborators are assumed not to raise, and the
reuse decision resolves to false for every URL (as it must for the
resource to be fetched at all). -/
theorem navigation_bounded_save_reached (b : AgentBehavior) (mm0 : MemoryManager)
    (task sessionId : String) (us : List String) (maxSteps : Nat) (u : String)
    (hreuse : ∀ w v, shouldReuseResult b.geminiModel (b.reuseText w)
      (sanitizeInput task) w v = false)
    (hib : b.initBrowser = Except.ok ())
    (hnp : ∀ w, b.newPage w = Except.ok ())
    (hpc : ∀ w, ∃ c, b.pageContent w = Except.ok c)
    (han : ∃ p, b.analysisResult = Except.ok p)
    (hsu : ∃ s, b.summaryText = Except.ok s)
    (hu : u ∈ us) :
    ∃ out, runTaskBody b mm0 task sessionId (.list us) maxSteps = .ok out ∧
      (∀ e ∈ out.navLog, navShape e.2 ∧ countAttempts e.2 ≤ 3) ∧
      u ∈ out.visited ∧
      (aget out.mem.db (sessionId, memoryKeyFor (sanitizeInput task) u)).isSome ∧
      (aget out.mem.db (sessionId, "summary:" ++ u)).isSome := by
  obtain ⟨p, hp⟩ := han
  obtain ⟨s, hs⟩ := hsu
  obtain ⟨st', hst', _hvis, hnav, _hpre, hall⟩ :=
    processUrls_ok b (sanitizeInput task) sessionId maxSteps hreuse hnp hpc us
      ⟨mm0, [], [], [], []⟩
  obtain ⟨huv, hukey, husum⟩ := hall u hu
  have hnav' : ∀ e ∈ st'.navLog, navShape e.2 ∧ countAttempts e.2 ≤ 3 :=
    hnav (by intro e he; simp at he)
  simp only [runTaskBody, hib, hst']
  by_cases hsent : (containsSub "sentiment".toList (pyLower (sanitizeInput task).toList) ||
      containsSub "analyze".toList (pyLower (sanitizeInput task).toList)) = true
  · rw [hsent] at *
    simp only [hsent, if_true, hp, hs]
    by_cases hstat : isStrEq (dgetD p "status" PyVal.none) "success" = true
    · simp only [hstat, if_true]
      exact ⟨_, rfl, hnav', huv, hukey, husum⟩
    · rw [Bool.not_eq_true] at hstat
      simp only [hstat, Bool.false_eq_true, if_false]
      exact ⟨_, rfl, hnav', huv, hukey, husum⟩
  · rw [Bool.not_eq_true] at hsent
    simp only [hsent, Bool.false_eq_true, if_false, hs]
    exact ⟨_, rfl, hnav', huv, hukey, husum⟩

/-- Witness for C5: a single resource whose every navigation attempt
fails with a non-success response — the run still completes and the
resource's `Save` happened. -/
theorem navigation_bounded_save_reached_witness :
    ∃ out, runTaskBody bNavFail ⟨[], []⟩ "t" "sid" (.list ["https://a"]) 5 = .ok out ∧
      (∀ e ∈ out.navLog, navShape e.2 ∧ countAttempts e.2 ≤ 3) ∧
      "https://a" ∈ out.visited ∧
      (aget out.mem.db ("sid", memoryKeyFor (sanitizeInput "t") "https://a")).isSome ∧
      (aget out.mem.db ("sid", "summary:" ++ "https://a")).isSome :=
  navigation_bounded_save_reached bNavFail ⟨[], []⟩ "t" "sid" ["https://a"] 5 "https://a"
    (fun _ _ => rfl) rfl (fun _ => rfl) (fun _ => ⟨"", rfl⟩) ⟨.dict [], rfl⟩ ⟨"done", rfl⟩
    (by simp)

/-- Whenever the body of `run_task` completes without an exception, the
result it assembled carries status `"success"`. -/
theorem runTaskBody_ok_status (b : AgentBehavior) (mm0 : MemoryManager)
    (task sessionId : String) (urls : PyUrls) (maxSteps : Nat) (out : RunOut)
    (h : runTaskBody b mm0 task sessionId urls maxSteps = .ok out) :
    dget out.result "status" = some (.str "success") := by
  simp only [runTaskBody] at h
  repeat' split at h
  all_goals first
    | exact Except.noConfusion h
    | (injection h with h; subst h; rfl)

/-- C1: `run_task` always returns a task-result dictionary — with status
`"success"`, or with status `"error"` and a `message` field; and whenever
an exception escapes the body, the result is exactly the error dictionary
carrying that exception's text. -/
theorem runTask_never_raises (b : AgentBehavior) (mm0 : MemoryManager)
    (task sessionId : String) (urls : PyUrls) (maxSteps : Nat) :
    (dget (runTask b mm0 task sessionId urls maxSteps) "status" =
        some (.str "success") ∨
      (dget (runTask b mm0 task sessionId urls maxSteps) "status" =
          some (.str "error") ∧
        ∃ m, dget (runTask b mm0 task sessionId urls maxSteps) "message" =
          some (.str m))) ∧
    (∀ e, runTaskBody b mm0 task sessionId urls maxSteps = .error e →
      runTask b mm0 task sessionId urls maxSteps =
        .dict [("status", .str "error"), ("message", .str e)]) := by
  cases hbody : runTaskBody b mm0 task sessionId urls maxSteps with
  | ok out =>
    constructor
    · left
      have hr : runTask b mm0 task sessionId urls maxSteps = out.result := by
        simp [runTask, hbody]
      rw [hr]
      exact runTaskBody_ok_status b mm0 task sessionId urls maxSteps out hbody
    · intro e he
      exact Except.noConfusion he
  | error e =>
    have hr : runTask b mm0 task sessionId urls maxSteps =
        .dict [("status", .str "error"), ("message", .str e)] := by
      simp [runTask, hbody]
    constructor
    · right
      rw [hr]
      exact ⟨rfl, e, rfl⟩
    · intro e' he'
      injection he' with he'
      subst he'
      exact hr

/-- Witness for C1: passing a non-list `urls` argument makes the body
raise the validation error, which `run_task` converts into the
error-status result dictionary. -/
theorem runTask_never_raises_witness :
    runTask bNavFail ⟨[], []⟩ "t" "sid" PyUrls.notList 5 =
      .dict [("status", .str "error"), ("message", .str "URLs must be a list.")] :=
  (runTask_never_raises bNavFail ⟨[], []⟩ "t" "sid" PyUrls.notList 5).2
    "URLs must be a list." rfl

/-- Witness for C9's corrected statement: a bare `navigate` action and a
bare `fill_form` action against the all-succeeding page. -/
theorem executeAction_missing_params_witness :
    executeAction pbOk (.dict [("type", .str "navigate")]) =
      (unknownOutcome (.str "navigate"), []) ∧
    executeAction pbOk (.dict [("type", .str "fill_form")]) =
      (.dict [("status", .str "success"), ("action", .str "fill_form"),
              ("form_data", .dict [])], []) :=
  ⟨(executeAction_missing_params pbOk (.dict [("type", .str "navigate")])).1 rfl rfl,
   (executeAction_missing_params pbOk
      (.dict [("type", .str "fill_form")])).2.2.2 rfl rfl rfl⟩

end Rabbit
